import Mathlib

/-!
Verification development for the plan-my-outings backend
(src/backend/main.py), a group-outing planning service.  The Python
source is shallowly embedded: Python floats are modelled as exact
rationals, Optional fields as Option, dictionaries that preserve
insertion order as association lists, and the md5 cache hash as the
hashed content string itself (the hash is treated as collision free).
Python truthiness on optional numbers and strings (where 0, 0.0 and ""
are falsy) is embedded explicitly by the pyOr helpers, because the
source uses the `x or default` idiom in several places.
-/

namespace PlanMyOutings

/-- Python `v or d` for an optional rational: `None` and `0.0` are falsy. -/
def pyOrRat (v : Option ℚ) (d : ℚ) : ℚ :=
  match v with
  | none => d
  | some x => if x = 0 then d else x

/-- Python `v or d` for an optional integer: `None` and `0` are falsy. -/
def pyOrInt (v : Option ℤ) (d : ℤ) : ℤ :=
  match v with
  | none => d
  | some x => if x = 0 then d else x

/-- Python `v or d` for an optional string: `None` and `""` are falsy. -/
def pyOrStr (v : Option String) (d : String) : String :=
  match v with
  | none => d
  | some s => if s = "" then d else s

/-- Embeds the `Suggestion` model of main.py (lines 34-45).  The
`metadata` and `created_at` columns and the autogenerated `id` are not
used by any logic verified here and are omitted. -/
structure Suggestion where
  group_id : ℕ
  type : String
  source_id : Option String
  title : String
  description : Option String
  rating : Option ℚ
  price_estimate : Option ℤ
deriving DecidableEq, Repr

/-- Embeds the budget lookup `budget_map.get(group_budget, 2000)` of
`calculate_score` (main.py lines 264-265): `{low:1000, medium:2000,
high:4000}` with default 2000. -/
def budget_map (group_budget : String) : ℤ :=
  if group_budget = "low" then 1000
  else if group_budget = "medium" then 2000
  else if group_budget = "high" then 4000
  else 2000

/-- Embeds `calculate_score` (main.py lines 260-279), the PlanPal
scoring algorithm, with floats as exact rationals. -/
def calculate_score (suggestion : Suggestion) (group_budget : String)
    (votes max_votes : ℤ) (distance_km max_distance : ℚ) : ℚ :=
  let rating_norm : ℚ := pyOrRat suggestion.rating 3.5 / 5
  let budget_limit : ℤ := budget_map group_budget
  let price : ℤ := pyOrInt suggestion.price_estimate 1000
  let budget_match : ℚ :=
    if price ≤ budget_limit then 1
    else if (price : ℚ) ≤ (budget_limit : ℚ) * 1.2 then 0.5
    else 0.1
  let vote_score : ℚ := if max_votes > 0 then (votes : ℚ) / (max_votes : ℚ) else 0
  let proximity_score : ℚ :=
    if max_distance > 0 then max 0 (1 - distance_km / max_distance) else 0.5
  rating_norm * 0.5 + budget_match * 0.2 + vote_score * 0.2 + proximity_score * 0.1

/-- The weighted sum exactly as claim C1 words it (spec §4.3):
`0.5*(rating or 3.5)/5 + 0.2*budgetMatch + 0.2*(votes/maxVotes, 0 if
maxVotes==0) + 0.1*(max(0, 1 - distance/maxDistance), 0.5 if
maxDistance==0)`, with the limit table `{low:1000, medium:2000,
high:4000}` (default 2000) and price defaulting to 1000.  The phrases
`rating or 3.5` and the price default quote the source idiom, so the
truthy defaults are kept. -/
def claim_score (rating : Option ℚ) (price_estimate : Option ℤ) (budgetLevel : String)
    (votes maxVotes : ℤ) (distance maxDistance : ℚ) : ℚ :=
  let limit : ℤ :=
    if budgetLevel = "low" then 1000
    else if budgetLevel = "medium" then 2000
    else if budgetLevel = "high" then 4000
    else 2000
  let price : ℤ := pyOrInt price_estimate 1000
  let budgetMatch : ℚ :=
    if price ≤ limit then 1
    else if (price : ℚ) ≤ 1.2 * (limit : ℚ) then 0.5
    else 0.1
  0.5 * (pyOrRat rating 3.5 / 5)
    + 0.2 * budgetMatch
    + 0.2 * (if maxVotes = 0 then 0 else (votes : ℚ) / (maxVotes : ℚ))
    + 0.1 * (if maxDistance = 0 then 0.5 else max 0 (1 - distance / maxDistance))

/-- A concrete suggestion with no rating and a price far over the
medium budget, as in the second example of claim C1. -/
def c1Suggestion : Suggestion :=
  { group_id := 1, type := "place", source_id := none, title := "Pricey",
    description := none, rating := none, price_estimate := some 2500 }

/-- C1: the claim asserts a score of 0.36 for a suggestion with rating
absent, price over 1.2 times the limit, zero votes and distance equal
to a positive maximum distance; the code yields 0.37 at such an input
(0.5 times 0.7 plus 0.2 times 0.1), so the claim as stated is false. -/
theorem c1_score_counterexample :
    calculate_score c1Suggestion "medium" 0 1 10 10 = 37 / 100 ∧
    ¬ calculate_score c1Suggestion "medium" 0 1 10 10 = 36 / 100 := by
  have h : calculate_score c1Suggestion "medium" 0 1 10 10 = 37 / 100 := by
    simp only [calculate_score, c1Suggestion, pyOrRat, pyOrInt,
      show budget_map "medium" = 2000 from by decide]
    norm_num
  exact ⟨h, by rw [h]; norm_num⟩

/-- C1 (amended): `calculate_score` equals the claimed weighted sum for
all nonnegative vote and distance maxima; a suggestion with rating 5, a
positive price within budget, votes equal to a positive maximum and
zero distance against a positive maximum scores exactly 1; and with
rating absent, price over 1.2 times the limit, zero votes and distance
equal to the positive maximum it scores 0.37. -/
theorem c1_score_formula :
    (∀ (s : Suggestion) (b : String) (v mv : ℤ) (d md : ℚ),
      0 ≤ mv → 0 ≤ md →
      calculate_score s b v mv d md =
        claim_score s.rating s.price_estimate b v mv d md) ∧
    (∀ (s : Suggestion) (b : String) (mv : ℤ) (p : ℤ) (md : ℚ),
      s.rating = some 5 → s.price_estimate = some p → 0 < p →
      p ≤ budget_map b → 0 < mv → 0 < md →
      calculate_score s b mv mv 0 md = 1) ∧
    (∀ (s : Suggestion) (b : String) (p : ℤ) (md : ℚ),
      s.rating = none → s.price_estimate = some p →
      (budget_map b : ℚ) * 1.2 < (p : ℚ) → 0 < md →
      calculate_score s b 0 1 md md = 37 / 100) := by
  refine ⟨?_, ?_, ?_⟩
  · intro s b v mv d md hmv hmd
    have hvote : (if mv > 0 then (v : ℚ) / (mv : ℚ) else 0)
        = (if mv = 0 then 0 else (v : ℚ) / (mv : ℚ)) := by
      rcases eq_or_lt_of_le hmv with h | h
      · rw [if_neg (by omega), if_pos (by omega)]
      · rw [if_pos h, if_neg (by omega)]
    have hprox : (if md > 0 then max 0 (1 - d / md) else (0.5 : ℚ))
        = (if md = 0 then (0.5 : ℚ) else max 0 (1 - d / md)) := by
      rcases eq_or_lt_of_le hmd with h | h
      · rw [if_neg (by rw [← h]; exact lt_irrefl 0), if_pos h.symm]
      · rw [if_pos h, if_neg h.ne']
    have hbud : ∀ P L : ℚ, (P ≤ L * 1.2) = (P ≤ 1.2 * L) := by
      intro P L
      rw [mul_comm]
    simp only [calculate_score, claim_score, budget_map, hvote, hprox, hbud]
    ring
  · intro s b mv p md hr hp hppos hple hmv hmd
    have hmvQ : ((mv : ℚ)) ≠ 0 := Int.cast_ne_zero.mpr (by omega)
    simp only [calculate_score, pyOrRat, pyOrInt, hr, hp]
    rw [if_neg (by norm_num : ¬ (5 : ℚ) = 0), if_neg (by omega : ¬ p = 0),
      if_pos hple, if_pos hmv, if_pos hmd, div_self hmvQ, zero_div, sub_zero,
      max_eq_right (by norm_num : (0 : ℚ) ≤ 1)]
    norm_num
  · intro s b p md hr hp hpgt hmd
    have hL : (1000 : ℤ) ≤ budget_map b := by
      simp only [budget_map]
      split_ifs <;> norm_num
    have hLQ1 : (1000 : ℚ) ≤ (budget_map b : ℚ) := by exact_mod_cast hL
    have hLQ : (0 : ℚ) < (budget_map b : ℚ) * 1.2 := by nlinarith
    have hpposQ : (0 : ℚ) < (p : ℚ) := lt_trans hLQ hpgt
    have hp0 : ¬ p = 0 := by
      intro h
      rw [h] at hpposQ
      norm_num at hpposQ
    have hnle2 : ¬ (p : ℚ) ≤ (budget_map b : ℚ) * 1.2 := not_le.mpr hpgt
    have hnle1 : ¬ p ≤ budget_map b := by
      intro h
      apply hnle2
      have h1 : (p : ℚ) ≤ (budget_map b : ℚ) := by exact_mod_cast h
      linarith
    simp only [calculate_score, pyOrRat, pyOrInt, hr, hp]
    rw [if_neg hp0, if_neg hnle1, if_neg hnle2, if_pos (by norm_num : (1 : ℤ) > 0),
      if_pos hmd, div_self hmd.ne', sub_self, max_self]
    norm_num

/-- C1 witness: the amended formula evaluated at concrete inputs. -/
theorem c1_score_formula_witness :
    calculate_score c1Suggestion "medium" 0 2 3 4 =
      claim_score none (some 2500) "medium" 0 2 3 4 ∧
    calculate_score
      { c1Suggestion with rating := some 5, price_estimate := some 1500 }
      "medium" 2 2 0 10 = 1 ∧
    calculate_score c1Suggestion "medium" 0 1 10 10 = 37 / 100 :=
  ⟨(c1_score_formula.1 c1Suggestion "medium" 0 2 3 4 (by norm_num) (by norm_num)),
   (c1_score_formula.2.1
      { c1Suggestion with rating := some 5, price_estimate := some 1500 }
      "medium" 2 1500 10 rfl rfl (by norm_num) (by decide)
      (by norm_num) (by norm_num)),
   (c1_score_formula.2.2 c1Suggestion "medium" 2500 10 rfl rfl
      (by rw [show budget_map "medium" = 2000 from by decide]; norm_num)
      (by norm_num))⟩

/-- The Google price tier table of `map_price_level_to_inr` (main.py
line 247): `{0: 300, 1: 700, 2: 1500, 3: 3000, 4: 4500}`, as a partial
lookup. -/
def priceMapping (v : ℤ) : Option ℤ :=
  if v = 0 then some 300
  else if v = 1 then some 700
  else if v = 2 then some 1500
  else if v = 3 then some 3000
  else if v = 4 then some 4500
  else none

/-- Embeds `map_price_level_to_inr` (main.py lines 245-248):
`mapping.get(price_level or 1, 1000)`.  The Python `or` sends both a
missing tier and a tier of 0 to tier 1. -/
def map_price_level_to_inr (price_level : Option ℤ) : ℤ :=
  (priceMapping (pyOrInt price_level 1)).getD 1000

/-- A raw Google Places candidate record: the provider fields read by
`create_suggestions` and the mock data (main.py lines 225-233, 404-418). -/
structure PlaceRec where
  name : Option String
  rating : Option ℚ
  price_level : Option ℤ
  place_id : Option String
  vicinity : Option String
deriving DecidableEq, Repr

/-- Embeds the place-normalization step of `create_suggestions`
(main.py lines 404-421): title defaults to "Unknown Place", rating to
4.0, description to "", and the price comes from
`map_price_level_to_inr`.  The `metadata` dictionary is omitted. -/
def normalizePlace (gid : ℕ) (place : PlaceRec) : Suggestion :=
  { group_id := gid
    type := "place"
    source_id := place.place_id
    title := place.name.getD "Unknown Place"
    description := some (place.vicinity.getD "")
    rating := some (place.rating.getD 4)
    price_estimate := some (map_price_level_to_inr place.price_level) }

/-- C2: a place candidate with price tier 0 is priced 700, not the 300
announced by the table, because `price_level or 1` turns the falsy
tier 0 into tier 1; the `0: 300` entry of the mapping in the source is
unreachable.  The rating default of 4.0 and the absent-tier default of
700 do hold. -/
theorem c2_price_tier_zero_bug :
    (normalizePlace 1 ⟨some "Cubbon Park", none, some 0, some "mock_1", none⟩).rating
      = some 4 ∧
    (normalizePlace 1 ⟨some "Cubbon Park", none, some 0, some "mock_1", none⟩).price_estimate
      = some 700 ∧
    map_price_level_to_inr (some 0) = 700 ∧
    ¬ map_price_level_to_inr (some 0) = 300 ∧
    map_price_level_to_inr none = 700 :=
  ⟨rfl, rfl, rfl, by decide, rfl⟩

/-- Embeds the `Member` model of main.py (lines 24-32); `joined_at` and
the autogenerated `id` are omitted. -/
structure Member where
  group_id : ℕ
  name : String
  avatar_url : Option String
  location_lat : Option ℚ
  location_lng : Option ℚ
deriving DecidableEq, Repr

/-- Python list comprehension `[x for m in members if m.x]` over an
optional float column: keeps the values that are present and nonzero,
because 0.0 is falsy. -/
def pyTruthyList (xs : List (Option ℚ)) : List ℚ :=
  xs.filterMap fun v =>
    match v with
    | none => none
    | some x => if x = 0 then none else some x

/-- Embeds the centroid computation of `create_suggestions` (main.py
lines 396-400): per-coordinate mean of the truthy values, with the
default (12.9716, 77.5946) per coordinate when its list is empty. -/
def centroid (members : List Member) : ℚ × ℚ :=
  let lats := pyTruthyList (members.map Member.location_lat)
  let lngs := pyTruthyList (members.map Member.location_lng)
  (if lats.isEmpty then 12.9716 else lats.sum / lats.length,
   if lngs.isEmpty then 77.5946 else lngs.sum / lngs.length)

/-- A member on the equator: latitude exactly 0.0, longitude 50. -/
def c4Member : Member :=
  { group_id := 1, name := "Equator", avatar_url := none,
    location_lat := some 0, location_lng := some 50 }

/-- C4: a member at latitude 0.0 is dropped from the latitude mean
(`if m.location_lat` is false for 0.0), so the centroid of that single
located member is (12.9716, 50), not the member location (0, 50) the
claim requires. -/
theorem c4_centroid_counterexample :
    centroid [c4Member] = (12.9716, 50) ∧ ¬ centroid [c4Member] = (0, 50) := by
  have h : centroid [c4Member] = (12.9716, 50) := by
    simp [centroid, c4Member, pyTruthyList]
  refine ⟨h, ?_⟩
  rw [h]
  intro hc
  have h1 := congrArg Prod.fst hc
  norm_num at h1

theorem pyTruthyList_replicate (n : ℕ) (x : ℚ) (hx : ¬ x = 0) :
    pyTruthyList (List.replicate n (some x)) = List.replicate n x := by
  induction n with
  | zero => rfl
  | succ k ih =>
    simp only [List.replicate_succ, pyTruthyList, List.filterMap_cons, if_neg hx]
    simpa [pyTruthyList] using ih

/-- C4 (amended): each centroid coordinate is the arithmetic mean of
the member values for that coordinate that are present and nonzero
(the two coordinates filtered independently); the default coordinate
value is used exactly when that filtered list is empty; and the
centroid of N identical members at a point with nonzero coordinates is
that point. -/
theorem c4_centroid_amended :
    (∀ members : List Member,
      (pyTruthyList (members.map Member.location_lat) ≠ [] →
        (centroid members).1 = (pyTruthyList (members.map Member.location_lat)).sum /
          (pyTruthyList (members.map Member.location_lat)).length) ∧
      (pyTruthyList (members.map Member.location_lat) = [] →
        (centroid members).1 = 12.9716) ∧
      (pyTruthyList (members.map Member.location_lng) ≠ [] →
        (centroid members).2 = (pyTruthyList (members.map Member.location_lng)).sum /
          (pyTruthyList (members.map Member.location_lng)).length) ∧
      (pyTruthyList (members.map Member.location_lng) = [] →
        (centroid members).2 = 77.5946)) ∧
    (∀ (n g : ℕ) (nm : String) (p q : ℚ), n ≠ 0 → p ≠ 0 → q ≠ 0 →
      centroid (List.replicate n
        { group_id := g, name := nm, avatar_url := none,
          location_lat := some p, location_lng := some q }) = (p, q)) := by
  constructor
  · intro members
    refine ⟨fun h => ?_, fun h => ?_, fun h => ?_, fun h => ?_⟩ <;>
      simp [centroid, List.isEmpty_iff, h]
  · intro n g nm p q hn hp hq
    have hlat : (List.replicate n
        (Member.mk g nm none (some p) (some q))).map Member.location_lat
        = List.replicate n (some p) := by
      simp [List.map_replicate]
    have hlng : (List.replicate n
        (Member.mk g nm none (some p) (some q))).map Member.location_lng
        = List.replicate n (some q) := by
      simp [List.map_replicate]
    have hnQ : (n : ℚ) ≠ 0 := Nat.cast_ne_zero.mpr hn
    simp only [centroid, hlat, hlng, pyTruthyList_replicate n p hp,
      pyTruthyList_replicate n q hq, List.isEmpty_iff, List.replicate_eq_nil_iff,
      List.sum_replicate, List.length_replicate, nsmul_eq_mul]
    rw [if_neg hn, if_neg hn, mul_div_cancel_left₀ p hnQ, mul_div_cancel_left₀ q hnQ]

/-- C4 witness: the amended statement at one member with nonzero
coordinates. -/
theorem c4_centroid_witness :
    centroid [{ group_id := 1, name := "w", avatar_url := none,
                location_lat := some 10, location_lng := some 20 }] = (10, 20) := by
  have h := c4_centroid_amended.2 1 1 "w" 10 20 (by decide) (by norm_num) (by norm_num)
  simpa using h

/-- Degrees to radians, embedding `math.radians`. -/
noncomputable def radiansR (x : ℝ) : ℝ := x * (Real.pi / 180)

/-- Embeds `math.atan2(y, x)`, the four-quadrant arctangent. -/
noncomputable def atan2 (y x : ℝ) : ℝ :=
  if 0 < x then Real.arctan (y / x)
  else if x < 0 then
    (if 0 ≤ y then Real.arctan (y / x) + Real.pi else Real.arctan (y / x) - Real.pi)
  else
    (if 0 < y then Real.pi / 2 else if y < 0 then -(Real.pi / 2) else 0)

/-- The haversine intermediate `a` of `calculate_distance` (main.py
line 256). -/
noncomputable def hav_a (lat1 lng1 lat2 lng2 : ℝ) : ℝ :=
  Real.sin (radiansR (lat2 - lat1) / 2) ^ 2 +
    Real.cos (radiansR lat1) * Real.cos (radiansR lat2) *
      Real.sin (radiansR (lng2 - lng1) / 2) ^ 2

/-- Embeds `calculate_distance` (main.py lines 250-258), the Haversine
distance with Earth radius 6371 km, over the reals. -/
noncomputable def calculate_distance (lat1 lng1 lat2 lng2 : ℝ) : ℝ :=
  6371 * (2 * atan2 (Real.sqrt (hav_a lat1 lng1 lat2 lng2))
    (Real.sqrt (1 - hav_a lat1 lng1 lat2 lng2)))

/-- C9: the Haversine distance is symmetric in its two points and is
exactly zero when the points coincide. -/
theorem c9_haversine_symm_zero :
    (∀ lat1 lng1 lat2 lng2 : ℝ,
      calculate_distance lat1 lng1 lat2 lng2 = calculate_distance lat2 lng2 lat1 lng1) ∧
    (∀ lat lng : ℝ, calculate_distance lat lng lat lng = 0) := by
  have hsin : ∀ u v k : ℝ,
      Real.sin ((u - v) * k / 2) ^ 2 = Real.sin ((v - u) * k / 2) ^ 2 := by
    intro u v k
    rw [show (u - v) * k / 2 = -((v - u) * k / 2) by ring, Real.sin_neg, neg_sq]
  have ha : ∀ lat1 lng1 lat2 lng2 : ℝ,
      hav_a lat1 lng1 lat2 lng2 = hav_a lat2 lng2 lat1 lng1 := by
    intro lat1 lng1 lat2 lng2
    simp only [hav_a, radiansR]
    rw [hsin lat2 lat1, hsin lng2 lng1,
      mul_comm (Real.cos (lat1 * (Real.pi / 180)))]
  constructor
  · intro lat1 lng1 lat2 lng2
    simp only [calculate_distance, ha lat1 lng1 lat2 lng2]
  · intro lat lng
    have h0 : hav_a lat lng lat lng = 0 := by
      simp [hav_a, radiansR]
    simp only [calculate_distance, h0, sub_zero, Real.sqrt_zero, Real.sqrt_one]
    rw [show atan2 0 1 = 0 from ?_]
    · ring
    · simp only [atan2, if_pos (by norm_num : (0 : ℝ) < 1)]
      simp [Real.arctan_zero]

/-- The separator join of `get_cache_key` (main.py line 128):
`'|'.join(args)`. -/
def joinBar : List String → String
  | [] => ""
  | [a] => a
  | a :: b :: rest => a ++ "|" ++ joinBar (b :: rest)

/-- Embeds `get_cache_key` (main.py lines 127-129).  The source hashes
the content string with md5; the hash is modelled as the content string
itself, treating the stable hash as collision free. -/
def get_cache_key (pre : String) (args : List String) : String :=
  pre ++ ":" ++ joinBar args

/-- The cache key of `fetch_google_places` (main.py line 148):
all four request parameters beyond the kind, stringified. -/
def places_cache_key (mood budget_level latS lngS : String) : String :=
  get_cache_key "places" [mood, budget_level, latS, lngS]

/-- The cache key of `fetch_tmdb_movies` (main.py line 190): the mood
only. -/
def movies_cache_key (mood : String) : String :=
  get_cache_key "movies" [mood]

/-- The cache key a suggestion fetch uses as a function of the five
request parameters (kind, mood, budgetLevel, lat, lng): the pipeline
(main.py lines 404-424) passes mood, budget and the centroid to the
places fetch but only the mood to the movies fetch. -/
def fetch_cache_key (kind mood budget_level latS lngS : String) : String :=
  if kind = "movies" then movies_cache_key mood
  else places_cache_key mood budget_level latS lngS

/-- The string contains no separator character. -/
def pipeFree (s : String) : Prop := '|' ∉ s.data

instance (s : String) : Decidable (pipeFree s) := by
  unfold pipeFree
  infer_instance

/-- C3: two movie fetches with the same mood but different
budgetLevel, lat and lng use the same cache entry, because the movie
cache key is computed from the mood alone; the claim that all five
request parameters determine the key is false for movies. -/
theorem c3_cache_key_counterexample :
    fetch_cache_key "movies" "chill" "low" "12.9716" "77.5946"
      = fetch_cache_key "movies" "chill" "high" "13.0827" "80.2707" ∧
    ("low" : String) ≠ "high" :=
  ⟨rfl, by decide⟩

theorem append_sep_inj (c : Char) (xs : List Char) :
    ∀ (ys rest rest' : List Char), c ∉ xs → c ∉ ys →
      xs ++ c :: rest = ys ++ c :: rest' → xs = ys ∧ rest = rest' := by
  induction xs with
  | nil =>
    intro ys rest rest' _ hy h
    cases ys with
    | nil => simpa using h
    | cons d ds =>
      rw [List.nil_append, List.cons_append] at h
      injection h with h1 h2
      subst h1
      exact absurd (List.mem_cons_self _ _) hy
  | cons x xs ih =>
    intro ys rest rest' hx hy h
    cases ys with
    | nil =>
      rw [List.cons_append, List.nil_append] at h
      injection h with h1 h2
      subst h1
      exact absurd (List.mem_cons_self _ _) hx
    | cons d ds =>
      rw [List.cons_append, List.cons_append] at h
      injection h with h1 h2
      subst h1
      obtain ⟨e1, e2⟩ := ih ds rest rest'
        (fun hm => hx (List.mem_cons_of_mem _ hm))
        (fun hm => hy (List.mem_cons_of_mem _ hm)) h2
      exact ⟨by rw [e1], e2⟩

/-- C3 (amended): the place fetch cache key is determined by, and
determines, all of mood, budgetLevel, lat and lng (for separator-free
parameter strings), while the movie fetch cache key is a function of
the mood alone, so movie fetches differing only in budgetLevel, lat or
lng always share one cache entry. -/
theorem c3_cache_key_amended :
    (∀ m b ls gs m' b' ls' gs' : String,
      pipeFree m → pipeFree b → pipeFree ls →
      pipeFree m' → pipeFree b' → pipeFree ls' →
      places_cache_key m b ls gs = places_cache_key m' b' ls' gs' →
      m = m' ∧ b = b' ∧ ls = ls' ∧ gs = gs') ∧
    (∀ mood b₁ ls₁ gs₁ b₂ ls₂ gs₂ : String,
      fetch_cache_key "movies" mood b₁ ls₁ gs₁
        = fetch_cache_key "movies" mood b₂ ls₂ gs₂) := by
  constructor
  · intro m b ls gs m' b' ls' gs' hm hb hls hm' hb' hls' h
    have hd := congrArg String.data h
    simp only [places_cache_key, get_cache_key, joinBar, String.data_append,
      show ("|" : String).data = ['|'] from rfl,
      List.append_assoc, List.singleton_append] at hd
    have hd1 := List.append_cancel_left hd
    injection hd1 with _ hd2
    obtain ⟨em, h2⟩ := append_sep_inj '|' m.data _ _ _ hm hm' hd2
    obtain ⟨eb, h3⟩ := append_sep_inj '|' b.data _ _ _ hb hb' h2
    obtain ⟨els, egs⟩ := append_sep_inj '|' ls.data _ _ _ hls hls' h3
    exact ⟨String.ext em, String.ext eb, String.ext els, String.ext egs⟩
  · intro mood b₁ ls₁ gs₁ b₂ ls₂ gs₂
    rfl

/-- C3 witness: the amended place-key injectivity applied at concrete
separator-free parameters. -/
theorem c3_cache_key_witness :
    ("chill" : String) = "chill" ∧ ("low" : String) = "low" ∧
    ("12.9716" : String) = "12.9716" ∧ ("77.5946" : String) = "77.5946" :=
  c3_cache_key_amended.1 "chill" "low" "12.9716" "77.5946"
    "chill" "low" "12.9716" "77.5946"
    (by decide) (by decide) (by decide) (by decide) (by decide) (by decide) rfl

/-- A raw TMDb movie candidate record: the provider fields read by
`create_suggestions` and the mock data (main.py lines 235-243,
423-437). -/
structure MovieRec where
  title : Option String
  vote_average : Option ℚ
  id : Option ℤ
  overview : Option String
  poster_path : Option String
  release_date : Option String
deriving DecidableEq, Repr

/-- Embeds `get_mock_places` (main.py lines 225-233), the static
fallback place dataset. -/
def get_mock_places (mood budget_level : String) : List PlaceRec :=
  [⟨some "Cubbon Park", some 4.5, some 0, some "mock_1", none⟩,
   ⟨some "Wonderla", some 4.3, some 3, some "mock_2", none⟩,
   ⟨some "Cafe Coffee Day", some 4.0, some 1, some "mock_3", none⟩,
   ⟨some "Lalbagh Botanical Garden", some 4.6, some 0, some "mock_4", none⟩]

/-- Embeds `get_mock_movies` (main.py lines 235-243), the static
fallback movie dataset. -/
def get_mock_movies (mood : String) : List MovieRec :=
  [⟨some "Zindagi Na Milegi Dobara", some 8.1, some 12345, none, none, none⟩,
   ⟨some "Dil Chahta Hai", some 8.0, some 12346, none, none, none⟩,
   ⟨some "Queen", some 7.8, some 12347, none, none, none⟩,
   ⟨some "3 Idiots", some 8.4, some 12348, none, none, none⟩]

/-- A cached value: the source cache holds `Any`; here, either kind of
candidate list. -/
inductive CacheVal where
  | places (results : List PlaceRec)
  | movies (results : List MovieRec)
deriving DecidableEq, Repr

/-- The process-wide cache (main.py line 102): an insertion-ordered
mapping from key to (data, timestamp), as an association list. -/
abbrev Cache := List (String × CacheVal × ℚ)

/-- main.py line 103. -/
def CACHE_TTL : ℚ := 1800

/-- Dictionary lookup `cache[key]` / `key in cache`. -/
def cacheLookup : Cache → String → Option (CacheVal × ℚ)
  | [], _ => none
  | e :: rest, k => if e.1 = k then some e.2 else cacheLookup rest k

/-- Dictionary deletion `del cache[key]` (removes the entry with the
key; dictionary keys are unique). -/
def cacheErase : Cache → String → Cache
  | [], _ => []
  | e :: rest, k => if e.1 = k then rest else e :: cacheErase rest k

/-- Embeds `get_cached` (main.py lines 131-137): a fresh entry is
returned, an expired one is evicted and treated as a miss.  Returns the
possibly updated cache alongside the result. -/
def get_cached (c : Cache) (k : String) (now : ℚ) : Option CacheVal × Cache :=
  match cacheLookup c k with
  | none => (none, c)
  | some (data, ts) =>
    if now - ts < CACHE_TTL then (some data, c) else (none, cacheErase c k)

/-- Embeds `set_cache` (main.py lines 139-140): dictionary assignment
`cache[key] = (data, now)`, replacing the entry in place or appending a
new one. -/
def set_cache : Cache → String → CacheVal → ℚ → Cache
  | [], k, v, now => [(k, v, now)]
  | e :: rest, k, v, now =>
    if e.1 = k then (k, v, now) :: rest else e :: set_cache rest k v now

/-- Python truthiness of a cached value: an empty candidate list is
falsy, so `if cached:` treats it as a miss. -/
def pyTruthyCacheVal : CacheVal → Bool
  | .places l => !l.isEmpty
  | .movies l => !l.isEmpty

/-- Outcome of the outbound HTTP call: `ok results` stands for a
response the source accepts (Places status "OK", TMDb payload with a
"results" field); `fail` covers exceptions, timeouts and rejected
payloads alike. -/
inductive ApiResult (α : Type) where
  | ok (results : List α)
  | fail
deriving DecidableEq, Repr

/-- The live-fetch tail of `fetch_google_places` (main.py lines
163-182): on an accepted response, cache and return the first 10
results; otherwise fall back to the mock places. -/
def placesLive (mood budget_level key : String) (c : Cache) (now : ℚ)
    (resp : ApiResult PlaceRec) : CacheVal × Cache :=
  match resp with
  | .ok results =>
    (.places (results.take 10), set_cache c key (.places (results.take 10)) now)
  | .fail => (.places (get_mock_places mood budget_level), c)

/-- Embeds `fetch_google_places` (main.py lines 142-182).  The API key,
the clock and the HTTP outcome are explicit inputs; the cache is
threaded through. -/
def fetch_google_places (api_key : Option String) (mood budget_level latS lngS : String)
    (c : Cache) (now : ℚ) (resp : ApiResult PlaceRec) : CacheVal × Cache :=
  match api_key with
  | none => (.places (get_mock_places mood budget_level), c)
  | some _ =>
    let key := places_cache_key mood budget_level latS lngS
    let g := get_cached c key now
    match g.1 with
    | some data =>
      if pyTruthyCacheVal data then (data, g.2)
      else placesLive mood budget_level key g.2 now resp
    | none => placesLive mood budget_level key g.2 now resp

/-- The live-fetch tail of `fetch_tmdb_movies` (main.py lines
204-223). -/
def moviesLive (mood key : String) (c : Cache) (now : ℚ)
    (resp : ApiResult MovieRec) : CacheVal × Cache :=
  match resp with
  | .ok results =>
    (.movies (results.take 10), set_cache c key (.movies (results.take 10)) now)
  | .fail => (.movies (get_mock_movies mood), c)

/-- Embeds `fetch_tmdb_movies` (main.py lines 184-223). -/
def fetch_tmdb_movies (api_key : Option String) (mood : String)
    (c : Cache) (now : ℚ) (resp : ApiResult MovieRec) : CacheVal × Cache :=
  match api_key with
  | none => (.movies (get_mock_movies mood), c)
  | some _ =>
    let key := movies_cache_key mood
    let g := get_cached c key now
    match g.1 with
    | some data =>
      if pyTruthyCacheVal data then (data, g.2)
      else moviesLive mood key g.2 now resp
    | none => moviesLive mood key g.2 now resp

/-- The dictionary invariant of the source cache: keys are unique. -/
def cacheKeysNodup (c : Cache) : Prop := (c.map fun e => e.1).Nodup

theorem cacheLookup_set (c : Cache) (k k' : String) (v : CacheVal) (now : ℚ) :
    cacheLookup (set_cache c k v now) k' =
      if k' = k then some (v, now) else cacheLookup c k' := by
  by_cases h : k' = k
  · subst h
    rw [if_pos rfl]
    induction c with
    | nil => simp [set_cache, cacheLookup]
    | cons e rest ih =>
      by_cases he : e.1 = k'
      · simp [set_cache, cacheLookup, he]
      · simp [set_cache, cacheLookup, he, ih]
  · have h' : ¬ k = k' := fun hh => h hh.symm
    rw [if_neg h]
    induction c with
    | nil => simp [set_cache, cacheLookup, h']
    | cons e rest ih =>
      by_cases he : e.1 = k
      · have hek : ¬ e.1 = k' := fun hh => h (hh.symm.trans he)
        simp [set_cache, cacheLookup, he, h', hek]
      · by_cases hek : e.1 = k'
        · simp [set_cache, cacheLookup, he, hek, h]
        · simp [set_cache, cacheLookup, he, hek, ih]

theorem cacheLookup_erase_of_ne (c : Cache) (k k' : String) (h : ¬ k' = k) :
    cacheLookup (cacheErase c k) k' = cacheLookup c k' := by
  have h' : ¬ k = k' := fun hh => h hh.symm
  induction c with
  | nil => rfl
  | cons e rest ih =>
    by_cases he : e.1 = k
    · simp [cacheErase, cacheLookup, he, h']
    · by_cases hek : e.1 = k'
      · simp [cacheErase, cacheLookup, he, hek, h]
      · simp [cacheErase, cacheLookup, he, hek, ih]

theorem cacheLookup_not_mem (c : Cache) (k : String)
    (h : k ∉ c.map fun e => e.1) : cacheLookup c k = none := by
  induction c with
  | nil => rfl
  | cons e rest ih =>
    simp only [List.map_cons, List.mem_cons, not_or] at h
    simp only [cacheLookup, if_neg (fun hh : e.1 = k => h.1 hh.symm)]
    exact ih h.2

theorem cacheLookup_erase_self (c : Cache) (k : String) (hnd : cacheKeysNodup c) :
    cacheLookup (cacheErase c k) k = none := by
  induction c with
  | nil => rfl
  | cons e rest ih =>
    simp only [cacheKeysNodup, List.map_cons, List.nodup_cons] at hnd
    by_cases he : e.1 = k
    · simp only [cacheErase, if_pos he]
      exact cacheLookup_not_mem rest k (he ▸ hnd.1)
    · simp only [cacheErase, if_neg he, cacheLookup, if_neg he]
      exact ih hnd.2

/-- C8: with no API credential configured, both fetches return the
fixed static dataset of length 4 for their kind and leave the cache
untouched; and any entry present in the cache after a fetch was either
already there or was written by a successful live fetch under that
fetch's own key. -/
theorem c8_fallback_and_cache_discipline :
    (∀ (mood budget latS lngS : String) (c : Cache) (now : ℚ)
        (resp : ApiResult PlaceRec),
      fetch_google_places none mood budget latS lngS c now resp
        = (.places (get_mock_places mood budget), c)) ∧
    (∀ (mood : String) (c : Cache) (now : ℚ) (resp : ApiResult MovieRec),
      fetch_tmdb_movies none mood c now resp
        = (.movies (get_mock_movies mood), c)) ∧
    (∀ mood budget : String, (get_mock_places mood budget).length = 4) ∧
    (∀ mood : String, (get_mock_movies mood).length = 4) ∧
    (∀ (api_key : Option String) (mood budget latS lngS : String) (c : Cache)
        (now : ℚ) (resp : ApiResult PlaceRec) (k : String) (v : CacheVal) (ts : ℚ),
      cacheKeysNodup c →
      cacheLookup (fetch_google_places api_key mood budget latS lngS c now resp).2 k
        = some (v, ts) →
      cacheLookup c k = some (v, ts) ∨
        ∃ results, resp = .ok results ∧ k = places_cache_key mood budget latS lngS ∧
          v = .places (results.take 10) ∧ ts = now) ∧
    (∀ (api_key : Option String) (mood : String) (c : Cache) (now : ℚ)
        (resp : ApiResult MovieRec) (k : String) (v : CacheVal) (ts : ℚ),
      cacheKeysNodup c →
      cacheLookup (fetch_tmdb_movies api_key mood c now resp).2 k = some (v, ts) →
      cacheLookup c k = some (v, ts) ∨
        ∃ results, resp = .ok results ∧ k = movies_cache_key mood ∧
          v = .movies (results.take 10) ∧ ts = now) := by
  refine ⟨fun _ _ _ _ _ _ _ => rfl, fun _ _ _ _ => rfl,
    fun _ _ => rfl, fun _ => rfl, ?_, ?_⟩
  · intro api_key mood budget latS lngS c now resp k v ts hnd h
    match api_key with
    | none => exact Or.inl h
    | some _ =>
      set key := places_cache_key mood budget latS lngS with hkey
      have hlive : ∀ c' : Cache,
          cacheLookup (placesLive mood budget key c' now resp).2 k = some (v, ts) →
          cacheLookup c' k = some (v, ts) ∨
            ∃ results, resp = .ok results ∧ k = key ∧
              v = .places (results.take 10) ∧ ts = now := by
        intro c' h'
        match resp with
        | .fail => exact Or.inl h'
        | .ok results =>
          simp only [placesLive] at h'
          rw [cacheLookup_set] at h'
          by_cases hk : k = key
          · rw [if_pos hk] at h'
            injection h' with h''
            injection h'' with hv hts
            exact Or.inr ⟨results, rfl, hk, hv.symm, hts.symm⟩
          · rw [if_neg hk] at h'
            exact Or.inl h'
      match hc : cacheLookup c key with
      | none =>
        simp only [fetch_google_places, get_cached, ← hkey, hc] at h
        exact hlive c h
      | some (data, ts0) =>
        by_cases hfresh : now - ts0 < CACHE_TTL
        · by_cases htr : pyTruthyCacheVal data = true
          · simp only [fetch_google_places, get_cached, ← hkey, hc, hfresh,
              if_true, htr] at h
            exact Or.inl h
          · simp [fetch_google_places, get_cached, ← hkey, hc, hfresh, htr] at h
            exact hlive c h
        · simp [fetch_google_places, get_cached, ← hkey, hc, hfresh] at h
          rcases hlive (cacheErase c key) h with h' | h'
          · by_cases hk : k = key
            · rw [hk, cacheLookup_erase_self c key hnd] at h'
              exact absurd h' (by simp)
            · rw [cacheLookup_erase_of_ne c key k hk] at h'
              exact Or.inl h'
          · exact Or.inr h'
  · intro api_key mood c now resp k v ts hnd h
    match api_key with
    | none => exact Or.inl h
    | some _ =>
      set key := movies_cache_key mood with hkey
      have hlive : ∀ c' : Cache,
          cacheLookup (moviesLive mood key c' now resp).2 k = some (v, ts) →
          cacheLookup c' k = some (v, ts) ∨
            ∃ results, resp = .ok results ∧ k = key ∧
              v = .movies (results.take 10) ∧ ts = now := by
        intro c' h'
        match resp with
        | .fail => exact Or.inl h'
        | .ok results =>
          simp only [moviesLive] at h'
          rw [cacheLookup_set] at h'
          by_cases hk : k = key
          · rw [if_pos hk] at h'
            injection h' with h''
            injection h'' with hv hts
            exact Or.inr ⟨results, rfl, hk, hv.symm, hts.symm⟩
          · rw [if_neg hk] at h'
            exact Or.inl h'
      match hc : cacheLookup c key with
      | none =>
        simp only [fetch_tmdb_movies, get_cached, ← hkey, hc] at h
        exact hlive c h
      | some (data, ts0) =>
        by_cases hfresh : now - ts0 < CACHE_TTL
        · by_cases htr : pyTruthyCacheVal data = true
          · simp only [fetch_tmdb_movies, get_cached, ← hkey, hc, hfresh,
              if_true, htr] at h
            exact Or.inl h
          · simp [fetch_tmdb_movies, get_cached, ← hkey, hc, hfresh, htr] at h
            exact hlive c h
        · simp [fetch_tmdb_movies, get_cached, ← hkey, hc, hfresh] at h
          rcases hlive (cacheErase c key) h with h' | h'
          · by_cases hk : k = key
            · rw [hk, cacheLookup_erase_self c key hnd] at h'
              exact absurd h' (by simp)
            · rw [cacheLookup_erase_of_ne c key k hk] at h'
              exact Or.inl h'
          · exact Or.inr h'

/-- C8 witness: the credential-free fallback at concrete inputs, and
the cache-write discipline applied to a successful live fetch into an
empty cache. -/
theorem c8_fallback_witness :
    (fetch_google_places none "chill" "low" "12.9716" "77.5946" [] 0 .fail
      = (.places (get_mock_places "chill" "low"), [])) ∧
    (cacheLookup ([] : Cache) (places_cache_key "chill" "low" "12.9716" "77.5946")
        = some (.places [], 0) ∨
      ∃ results, (ApiResult.ok [] : ApiResult PlaceRec) = .ok results ∧
        places_cache_key "chill" "low" "12.9716" "77.5946"
          = places_cache_key "chill" "low" "12.9716" "77.5946" ∧
        CacheVal.places [] = .places (results.take 10) ∧ (0 : ℚ) = 0) :=
  ⟨c8_fallback_and_cache_discipline.1 "chill" "low" "12.9716" "77.5946" [] 0 .fail,
   c8_fallback_and_cache_discipline.2.2.2.2.1 (some "key") "chill" "low" "12.9716"
     "77.5946" [] 0 (.ok []) (places_cache_key "chill" "low" "12.9716" "77.5946")
     (.places []) 0 (by simp [cacheKeysNodup]) rfl⟩

/-- One entry of the per-option vote ledger: {member_id, emoji}
(main.py line 512). -/
structure VoteEntry where
  member_id : ℤ
  emoji : String
deriving DecidableEq, Repr

/-- Embeds the `Poll` model (main.py lines 47-54): `options` is the
ordered {id, title} list stored under the "options" key, `votes` the
insertion-ordered mapping from option id to vote entries. -/
structure Poll where
  id : ℕ
  group_id : ℕ
  title : String
  options : List (String × String)
  votes : List (String × List VoteEntry)
deriving DecidableEq, Repr

/-- Embeds the `Group` model fields used here (main.py lines 15-22). -/
structure Group where
  id : ℕ
  code : String
  name : String
  mood : Option String
  budget_level : Option String
deriving DecidableEq, Repr

/-- Embeds `VoteRequest` (main.py lines 80-83). -/
structure VoteRequest where
  member_id : ℤ
  option_id : String
  emoji : String
deriving DecidableEq, Repr

/-- The rows the vote endpoint can see. -/
structure DB where
  groups : List Group
  polls : List Poll
deriving DecidableEq, Repr

/-- The endpoint outcome: a 200 response echoing the poll, or the 404
HTTPException. -/
inductive VoteResponse where
  | ok (poll : Poll)
  | notFound
deriving DecidableEq, Repr

/-- `votes[option_id]` on the ledger. -/
def lookupVotes : List (String × List VoteEntry) → String → Option (List VoteEntry)
  | [], _ => none
  | kv :: rest, oid => if kv.1 = oid then some kv.2 else lookupVotes rest oid

/-- Embeds main.py lines 509-513: append {member_id, emoji} to
`votes[option_id]`, creating the list first when the key is absent (a
new dictionary key goes at the end). -/
def addVote : List (String × List VoteEntry) → String → VoteEntry →
    List (String × List VoteEntry)
  | [], oid, e => [(oid, [e])]
  | kv :: rest, oid, e =>
    if kv.1 = oid then (kv.1, kv.2 ++ [e]) :: rest else kv :: addVote rest oid e

/-- Replace the row with the given primary key (ids are unique). -/
def updatePoll : List Poll → ℕ → Poll → List Poll
  | [], _, _ => []
  | q :: rest, pid, p' => if q.id = pid then p' :: rest else q :: updatePoll rest pid p'

/-- Embeds `vote_poll` (main.py lines 500-518).  The group code path
parameter is received but never consulted: the poll is selected by id
alone, before any mutation, and a missing poll raises 404. -/
def vote_poll (code : String) (poll_id : ℕ) (req : VoteRequest) (db : DB) :
    DB × VoteResponse :=
  match db.polls.find? (fun p => p.id == poll_id) with
  | none => (db, .notFound)
  | some poll =>
    let entry : VoteEntry := { member_id := req.member_id, emoji := req.emoji }
    let poll' : Poll := { poll with votes := addVote poll.votes req.option_id entry }
    ({ db with polls := updatePoll db.polls poll_id poll' }, .ok poll')

theorem lookupVotes_addVote_self (votes : List (String × List VoteEntry))
    (oid : String) (e : VoteEntry) :
    lookupVotes (addVote votes oid e) oid
      = some ((lookupVotes votes oid).getD [] ++ [e]) := by
  induction votes with
  | nil => simp [addVote, lookupVotes]
  | cons kv rest ih =>
    by_cases hk : kv.1 = oid
    · simp [addVote, lookupVotes, hk]
    · simp [addVote, lookupVotes, hk, ih]

theorem lookupVotes_addVote_ne (votes : List (String × List VoteEntry))
    (oid oid' : String) (e : VoteEntry) (h : ¬ oid' = oid) :
    lookupVotes (addVote votes oid e) oid' = lookupVotes votes oid' := by
  have h' : ¬ oid = oid' := fun hh => h hh.symm
  induction votes with
  | nil => simp [addVote, lookupVotes, h']
  | cons kv rest ih =>
    by_cases hk : kv.1 = oid
    · simp [addVote, lookupVotes, hk, h']
    · by_cases hko : kv.1 = oid'
      · simp [addVote, lookupVotes, hk, hko, h]
      · simp [addVote, lookupVotes, hk, hko, ih]

theorem addVote_ne (votes : List (String × List VoteEntry)) (oid : String)
    (e : VoteEntry) : ¬ addVote votes oid e = votes := by
  induction votes with
  | nil => simp [addVote]
  | cons kv rest ih =>
    by_cases hk : kv.1 = oid
    · simp only [addVote, if_pos hk]
      intro h
      injection h with h1 h2
      have h3 := congrArg Prod.snd h1
      have h4 := congrArg List.length h3
      simp only [List.length_append, List.length_singleton] at h4
      omega
    · simp only [addVote, if_neg hk]
      intro h
      injection h with h1 h2
      exact ih h2

/-- C7: a vote on an existing poll appends {member_id, emoji} at the
end of the ledger list for the requested option id, creating that list
if absent and leaving every other option list untouched; the option id
is never checked against the declared options (no hypothesis below
relates them); and a vote on a missing poll id returns 404 with the
store unchanged. -/
theorem c7_cast_vote :
    ∀ (db : DB) (code : String) (poll_id : ℕ) (req : VoteRequest),
      (db.polls.find? (fun p => p.id == poll_id) = none →
        vote_poll code poll_id req db = (db, .notFound)) ∧
      (∀ poll, db.polls.find? (fun p => p.id == poll_id) = some poll →
        ∃ poll',
          vote_poll code poll_id req db =
            ({ db with polls := updatePoll db.polls poll_id poll' }, .ok poll') ∧
          poll'.id = poll.id ∧ poll'.group_id = poll.group_id ∧
          poll'.title = poll.title ∧ poll'.options = poll.options ∧
          lookupVotes poll'.votes req.option_id =
            some ((lookupVotes poll.votes req.option_id).getD []
              ++ [{ member_id := req.member_id, emoji := req.emoji }]) ∧
          (∀ oid, ¬ oid = req.option_id →
            lookupVotes poll'.votes oid = lookupVotes poll.votes oid)) := by
  intro db code poll_id req
  constructor
  · intro h
    simp [vote_poll, h]
  · intro poll hp
    refine ⟨{ poll with votes := (addVote poll.votes req.option_id
        ⟨req.member_id, req.emoji⟩) },
      ?_, rfl, rfl, rfl, rfl, ?_, ?_⟩
    · simp [vote_poll, hp]
    · exact lookupVotes_addVote_self poll.votes req.option_id _
    · intro oid hoid
      exact lookupVotes_addVote_ne poll.votes req.option_id oid _ hoid

/-- A concrete store: one group with code "ABC123" and one poll with a
single declared option. -/
def samplePoll : Poll :=
  { id := 1, group_id := 1, title := "Where to go?",
    options := [("opt1", "Cafe")], votes := [] }

/-- A one-group one-poll store for the vote witnesses. -/
def sampleDB : DB :=
  { groups := [{ id := 1, code := "ABC123", name := "Friday Fun",
                 mood := some "chill", budget_level := some "low" }],
    polls := [samplePoll] }

/-- C7 witness: a vote for an option id that is not among the declared
options of the poll, on the concrete store. -/
theorem c7_cast_vote_witness :
    ∃ poll',
      vote_poll "ABC123" 1 { member_id := 7, option_id := "optX", emoji := "🔥" }
          sampleDB =
        ({ sampleDB with
            polls := updatePoll sampleDB.polls 1 poll' }, .ok poll') ∧
      poll'.id = samplePoll.id ∧ poll'.group_id = samplePoll.group_id ∧
      poll'.title = samplePoll.title ∧ poll'.options = samplePoll.options ∧
      lookupVotes poll'.votes "optX" =
        some ((lookupVotes samplePoll.votes "optX").getD []
          ++ [{ member_id := 7, emoji := "🔥" }]) ∧
      (∀ oid, ¬ oid = "optX" →
        lookupVotes poll'.votes oid = lookupVotes samplePoll.votes oid) :=
  (c7_cast_vote sampleDB "ABC123" 1
    { member_id := 7, option_id := "optX", emoji := "🔥" }).2 samplePoll rfl

/-- C10: the vote endpoint never consults the group code: its result is
the same for any two codes, its response and poll table do not depend
on the group table at all (in particular a code matching no group still
works), and whenever the poll id exists the vote succeeds and changes
that poll's ledger. -/
theorem c10_vote_ignores_group_code :
    ∀ (db : DB) (poll_id : ℕ) (req : VoteRequest) (code code' : String),
      vote_poll code poll_id req db = vote_poll code' poll_id req db ∧
      (∀ (groups₁ groups₂ : List Group) (polls : List Poll),
        (vote_poll code poll_id req { groups := groups₁, polls := polls }).2
          = (vote_poll code poll_id req { groups := groups₂, polls := polls }).2 ∧
        (vote_poll code poll_id req { groups := groups₁, polls := polls }).1.polls
          = (vote_poll code poll_id req { groups := groups₂, polls := polls }).1.polls) ∧
      (∀ poll, db.polls.find? (fun p => p.id == poll_id) = some poll →
        ∃ poll', (vote_poll code poll_id req db).2 = .ok poll' ∧
          ¬ poll'.votes = poll.votes) := by
  intro db poll_id req code code'
  refine ⟨rfl, ?_, ?_⟩
  · intro groups₁ groups₂ polls
    match hf : polls.find? (fun p => p.id == poll_id) with
    | none => exact ⟨by simp [vote_poll, hf], by simp [vote_poll, hf]⟩
    | some poll => exact ⟨by simp [vote_poll, hf], by simp [vote_poll, hf]⟩
  · intro poll hp
    refine ⟨{ poll with votes := (addVote poll.votes req.option_id
        ⟨req.member_id, req.emoji⟩) }, ?_, ?_⟩
    · simp [vote_poll, hp]
    · exact fun hh => addVote_ne poll.votes req.option_id _ hh

/-- C10 witness: a vote through a code that matches no group still
succeeds and mutates the poll ledger. -/
theorem c10_vote_witness :
    ∃ poll',
      (vote_poll "NOSUCH" 1 { member_id := 7, option_id := "opt1", emoji := "👍" }
        sampleDB).2 = .ok poll' ∧
      ¬ poll'.votes = samplePoll.votes :=
  (c10_vote_ignores_group_code sampleDB 1
    { member_id := 7, option_id := "opt1", emoji := "👍" } "NOSUCH" "ABC123").2.2
    samplePoll rfl

/-- Python `needle in hay` on strings: some suffix of `hay` starts
with `needle`. -/
def pyIn (needle hay : String) : Bool :=
  (List.range (hay.data.length + 1)).any fun i => needle.data.isPrefixOf (hay.data.drop i)

/-- Python `text.lower()`, character by character. -/
def pyLower (s : String) : String := ⟨s.data.map Char.toLower⟩

/-- Every persisted suggestion paired with its score under the neutral
context of `handle_planpal_query` (main.py lines 564-567): votes 0 of
1, distance 0 of a 10 km maximum, budget `group.budget_level or
"medium"`. -/
def scoredSuggestions (budget_level : Option String) (l : List Suggestion) :
    List (Suggestion × ℚ) :=
  l.map fun s => (s, calculate_score s (pyOrStr budget_level "medium") 0 1 0 10)

/-- Python `scored.sort(key=lambda x: x[1], reverse=True)` (main.py
line 569): a stable descending sort by score, embedded as a merge sort
whose comparator keeps the left element first unless its score is
strictly smaller. -/
def sortScored (xs : List (Suggestion × ℚ)) : List (Suggestion × ℚ) :=
  xs.mergeSort fun a b => decide (b.2 ≤ a.2)

/-- `scored[:3]` after the sort (main.py line 570). -/
def top3 (budget_level : Option String) (l : List Suggestion) :
    List (Suggestion × ℚ) :=
  (sortScored (scoredSuggestions budget_level l)).take 3

/-- Python string interpolation of an optional rating. -/
def optRatingStr : Option ℚ → String
  | none => "None"
  | some q => toString q

/-- Python string interpolation of an optional price. -/
def optPriceStr : Option ℤ → String
  | none => "None"
  | some n => toString n

/-- Two-decimal display of the score, standing in for the format
specifier .2f. -/
def format2f (q : ℚ) : String :=
  let c : ℤ := round (q * 100)
  let n := c.natAbs
  (if c < 0 then "-" else "") ++ toString (n / 100) ++ "." ++
    (if n % 100 < 10 then "0" else "") ++ toString (n % 100)

/-- One numbered line of the top-picks reply (main.py lines 574-575). -/
def formatPick (i : ℕ) (s : Suggestion) (score : ℚ) : String :=
  toString i ++ ". **" ++ s.title ++ "** (Rating: " ++ optRatingStr s.rating ++
    "/5)\n" ++ "   ₹" ++ optPriceStr s.price_estimate ++ " for 2 | Score: " ++
    format2f score ++ "\n\n"

/-- The whole top-picks reply (main.py lines 572-577). -/
def formatTopPicks (entries : List (Suggestion × ℚ)) : String :=
  "🎯 Top picks for you:\n\n" ++
    String.join (entries.enum.map fun ie => formatPick (ie.1 + 1) ie.2.1 ie.2.2)

/-- The comparison reply (main.py lines 584-588). -/
def formatCompare (s₁ s₂ : Suggestion) : String :=
  "📊 Comparison:\n\n" ++ "**" ++ s₁.title ++ "**\nRating: " ++
    optRatingStr s₁.rating ++ "/5 | ₹" ++ optPriceStr s₁.price_estimate ++
    "\n\n" ++ "**" ++ s₂.title ++ "**\nRating: " ++ optRatingStr s₂.rating ++
    "/5 | ₹" ++ optPriceStr s₂.price_estimate ++ "\n"

/-- The pros/cons reply (main.py lines 593-596). -/
def formatPros (s : Suggestion) : String :=
  "**" ++ s.title ++ "**\n\n" ++
    "✅ Pros:\n• Highly rated\n• Within budget\n• Good accessibility\n\n" ++
    "⚠️ Cons:\n• May be crowded on weekends\n• Limited parking"

/-- main.py line 580. -/
def safetyText : String :=
  "🚨 Safety tips:\n• Share live location with group\n• Keep emergency contacts handy\n• Travel in daylight when possible\n• Nearest police station: 2.3 km away"

/-- main.py line 599. -/
def helpText : String :=
  "I can help with: suggest, compare, safety, proscons. Just mention me with @PlanPal!"

/-- main.py line 558. -/
def noSuggestionsText : String :=
  "No suggestions available yet. Add some places or movies first!"

/-- Embeds `handle_planpal_query` (main.py lines 552-599) as a pure
function of the message text, the persisted suggestions of the group
and the group budget level. -/
def handle_planpal_query (text : String) (suggestions : List Suggestion)
    (budget_level : Option String) : String :=
  let text_lower := pyLower text
  if suggestions.isEmpty then noSuggestionsText
  else if pyIn "suggest" text_lower then
    formatTopPicks (top3 budget_level suggestions)
  else if pyIn "safety" text_lower then safetyText
  else if pyIn "compare" text_lower then
    match suggestions with
    | s₁ :: s₂ :: _ => formatCompare s₁ s₂
    | _ => "Need at least 2 suggestions to compare!"
  else if pyIn "proscons" text_lower || pyIn "pros" text_lower then
    match suggestions with
    | s :: _ => formatPros s
    | [] => helpText
  else helpText

/-- C6: with zero persisted suggestions the dispatcher answers the
fixed no-suggestions message for every message text, before any
keyword is looked at. -/
theorem c6_no_suggestions_short_circuit :
    ∀ (text : String) (budget_level : Option String),
      handle_planpal_query text [] budget_level
        = "No suggestions available yet. Add some places or movies first!" :=
  fun _ _ => rfl

theorem scoredDesc_trans :
    ∀ a b c : Suggestion × ℚ, decide (b.2 ≤ a.2) → decide (c.2 ≤ b.2) →
      decide (c.2 ≤ a.2) := by
  intro a b c hab hbc
  simp only [decide_eq_true_eq] at *
  exact le_trans hbc hab

theorem scoredDesc_total :
    ∀ a b : Suggestion × ℚ, decide (b.2 ≤ a.2) || decide (a.2 ≤ b.2) := by
  intro a b
  simp only [Bool.or_eq_true, decide_eq_true_eq]
  exact le_total b.2 a.2

/-- C5: when the message contains "suggest" (checked on the lowercased
text) and at least 3 suggestions are persisted, the reply is the
formatted top-3 list; the listed entries number exactly 3, their scores
are in descending order, and equal-score suggestions keep their
original relative order in the full sorted list. -/
theorem c5_suggest_top3 :
    ∀ (text : String) (budget_level : Option String) (l : List Suggestion),
      pyIn "suggest" (pyLower text) = true → 3 ≤ l.length →
      handle_planpal_query text l budget_level
        = formatTopPicks (top3 budget_level l) ∧
      (top3 budget_level l).length = 3 ∧
      (top3 budget_level l).Pairwise (fun a b => b.2 ≤ a.2) ∧
      (∀ a b : Suggestion × ℚ,
        [a, b].Sublist (scoredSuggestions budget_level l) → a.2 = b.2 →
        [a, b].Sublist (sortScored (scoredSuggestions budget_level l))) := by
  intro text budget_level l hkw hlen
  have hne : l.isEmpty = false := by
    cases l with
    | nil => simp at hlen
    | cons a t => rfl
  refine ⟨?_, ?_, ?_, ?_⟩
  · simp [handle_planpal_query, hne, hkw]
  · simp only [top3, sortScored, scoredSuggestions, List.length_take,
      List.length_mergeSort, List.length_map]
    omega
  · have hs : (sortScored (scoredSuggestions budget_level l)).Pairwise
        (fun a b : Suggestion × ℚ => decide (b.2 ≤ a.2)) :=
      List.sorted_mergeSort scoredDesc_trans scoredDesc_total _
    have ht : (top3 budget_level l).Pairwise
        (fun a b : Suggestion × ℚ => decide (b.2 ≤ a.2)) :=
      hs.sublist (List.take_sublist 3 _)
    exact ht.imp fun h => of_decide_eq_true h
  · intro a b hsub heq
    exact List.pair_sublist_mergeSort scoredDesc_trans scoredDesc_total
      (decide_eq_true (le_of_eq heq.symm)) hsub

/-- Three concrete suggestions for the C5 witness. -/
def sampleSuggestions : List Suggestion :=
  [{ group_id := 1, type := "place", source_id := none, title := "Cubbon Park",
     description := none, rating := some 4.5, price_estimate := some 300 },
   { group_id := 1, type := "place", source_id := none, title := "Wonderla",
     description := none, rating := some 4.3, price_estimate := some 3000 },
   { group_id := 1, type := "place", source_id := none, title := "Cafe Coffee Day",
     description := none, rating := some 4.0, price_estimate := some 700 }]

/-- C5 witness: the theorem applied to a concrete "@PlanPal suggest"
message and three concrete suggestions. -/
theorem c5_suggest_top3_witness :
    handle_planpal_query "@PlanPal suggest" sampleSuggestions (some "low")
      = formatTopPicks (top3 (some "low") sampleSuggestions) ∧
    (top3 (some "low") sampleSuggestions).length = 3 :=
  ⟨(c5_suggest_top3 "@PlanPal suggest" (some "low") sampleSuggestions
      rfl (by decide)).1,
   (c5_suggest_top3 "@PlanPal suggest" (some "low") sampleSuggestions
      rfl (by decide)).2.1⟩

end PlanMyOutings
